import Mathlib

/-!
Verification of the crypto price-alert application.

The repository consists of a React frontend (src/src/App.js,
src/src/components/PriceChart.js, src/src/components/Header.js), two
documentation files (src/unnamed/part_001, src/unnamed/part_002) and a
launcher script.  The Flask backend (app.py), which holds the alert
evaluator, the dispatcher and the creation-time validation, is not part
of the source tree; for claims that depend on it, the corresponding
definitions are modelled from the specification and marked
"Modelled from the spec".  Frontend behaviour (notification handling,
price-fetch retry, refresh cadence) is embedded directly from the
JavaScript source.  Prices are modelled as rationals, timestamps as
naturals, and the per-attempt outcomes of network calls as explicit
oracle functions.
-/

/-- Modelled from the spec (section 3, data model): alert direction enum
with members ABOVE and BELOW.  The backend app.py is absent from src/;
the frontend mirrors this as the boolean field is_above. -/
inductive Direction where
  | above
  | below
deriving DecidableEq, Repr

/-- Modelled from the spec (section 3): alert lifecycle status, created
ACTIVE, transitioning to TRIGGERED at most once.  The frontend mirrors
this as the boolean field is_active. -/
inductive AlertStatus where
  | active
  | triggered
deriving DecidableEq, Repr

/-- Modelled from the spec (section 3): a stored alert row.  Prices are
rationals, the owner is the registered chat identifier, created_at is
the immutable creation timestamp. -/
structure Alert where
  id : Nat
  owner : Nat
  symbol : String
  threshold : ℚ
  direction : Direction
  status : AlertStatus
  created_at : Nat
deriving DecidableEq, Repr

/-- Modelled from the spec (section 3): the ephemeral per-cycle price
snapshot, a mapping from symbol to the latest observed price, together
with the timestamp of observation.  A symbol absent from the list means
no observation this cycle. -/
structure PriceSnapshot where
  prices : List (String × ℚ)
  ts : Nat
deriving DecidableEq, Repr

/-- Price lookup in a snapshot: the first entry for the symbol, if any. -/
def lookupPrice (snap : PriceSnapshot) (sym : String) : Option ℚ :=
  (snap.prices.find? (fun e => e.1 == sym)).map (fun e => e.2)

/-- Modelled from the spec (section 4.2): the trigger predicate.  For
direction ABOVE the alert is satisfied when the observed price is
strictly greater than the threshold, for BELOW strictly smaller;
equality satisfies neither. -/
def satisfies (d : Direction) (threshold observed : ℚ) : Bool :=
  match d with
  | .above => decide (observed > threshold)
  | .below => decide (observed < threshold)

/-- Direction rendered as the word used in the notification text. -/
def dirWord (d : Direction) : String :=
  match d with
  | .above => "above"
  | .below => "below"

/-- Modelled from the spec (section 4.3 and the README notification
example in src/unnamed/part_002): the dispatched message, a pure
function of the alert, the observed price and the snapshot timestamp,
carrying the symbol, the observed price, the direction and threshold
relation, and the timestamp. -/
def formatMessage (a : Alert) (observed : ℚ) (ts : Nat) : String :=
  "CRYPTO ALERT: " ++ a.symbol ++ " is now $" ++ toString observed ++
    " - this is " ++ dirWord a.direction ++ " your threshold of $" ++
    toString a.threshold ++ " - alert triggered at " ++ toString ts ++ " UTC"

/-- Modelled from the spec (section 4.2): one evaluation of a single
alert against a snapshot.  A TRIGGERED alert is excluded from
evaluation; an ACTIVE alert whose symbol is missing from the snapshot is
skipped with no state change; otherwise, when the predicate is
satisfied the alert transitions to TRIGGERED and the notification
message is handed to the dispatcher.  The second component is the
dispatched message, if any. -/
def evalAlert (snap : PriceSnapshot) (a : Alert) : Alert × Option String :=
  match a.status with
  | .triggered => (a, none)
  | .active =>
    match lookupPrice snap a.symbol with
    | none => (a, none)
    | some p =>
      if satisfies a.direction a.threshold p then
        ({ a with status := .triggered }, some (formatMessage a p snap.ts))
      else
        (a, none)

/-- Modelled from the spec (sections 2 and 4.2): a sequence of
evaluation cycles applied to one alert, one snapshot per cycle,
collecting every dispatched message. -/
def runAlert (snaps : List PriceSnapshot) (a : Alert) : Alert × List String :=
  match snaps with
  | [] => (a, [])
  | s :: rest =>
    let step := evalAlert s a
    let tail := runAlert rest step.1
    (tail.1, step.2.toList ++ tail.2)

theorem evalAlert_triggered (snap : PriceSnapshot) (a : Alert)
    (h : a.status = .triggered) : evalAlert snap a = (a, none) := by
  simp [evalAlert, h]

theorem evalAlert_none_fst (snap : PriceSnapshot) (a : Alert)
    (h : (evalAlert snap a).2 = none) : (evalAlert snap a).1 = a := by
  unfold evalAlert at *
  cases hst : a.status with
  | triggered => simp [hst]
  | active =>
    simp only [hst] at h ⊢
    cases hp : lookupPrice snap a.symbol with
    | none => simp [hp]
    | some p =>
      simp only [hp] at h ⊢
      by_cases hs : satisfies a.direction a.threshold p = true
      · simp [hs] at h
      · simp [hs]

theorem evalAlert_some_triggered (snap : PriceSnapshot) (a : Alert) (m : String)
    (h : (evalAlert snap a).2 = some m) : ((evalAlert snap a).1).status = .triggered := by
  unfold evalAlert at *
  cases hst : a.status with
  | triggered => simp [hst] at h
  | active =>
    simp only [hst] at h ⊢
    cases hp : lookupPrice snap a.symbol with
    | none => simp [hp] at h
    | some p =>
      simp only [hp] at h ⊢
      by_cases hs : satisfies a.direction a.threshold p = true
      · simp [hs]
      · simp [hs] at h

theorem runAlert_triggered (snaps : List PriceSnapshot) (a : Alert)
    (h : a.status = .triggered) : runAlert snaps a = (a, []) := by
  induction snaps with
  | nil => rfl
  | cons s rest ih =>
    simp [runAlert, evalAlert_triggered s a h, ih]

/-- C1: for an ACTIVE alert whose symbol is observed at price p, the
evaluator fires (dispatches and transitions to TRIGGERED) exactly when
p is strictly greater than the threshold for direction ABOVE, and
strictly smaller for direction BELOW; at p equal to the threshold it
does not fire and leaves the alert unchanged. -/
theorem evaluator_fires_iff_strict (snap : PriceSnapshot) (a : Alert) (p : ℚ)
    (hA : a.status = .active) (hp : lookupPrice snap a.symbol = some p) :
    (((evalAlert snap a).2.isSome = true ∧ ((evalAlert snap a).1).status = .triggered) ↔
      ((a.direction = .above ∧ a.threshold < p) ∨ (a.direction = .below ∧ p < a.threshold))) ∧
    (p = a.threshold → evalAlert snap a = (a, none)) := by
  constructor
  · cases hd : a.direction with
    | above =>
      by_cases hlt : a.threshold < p
      · simp [evalAlert, hA, hp, satisfies, hd, hlt]
      · simp [evalAlert, hA, hp, satisfies, hd, hlt]
    | below =>
      by_cases hlt : p < a.threshold
      · simp [evalAlert, hA, hp, satisfies, hd, hlt]
      · simp [evalAlert, hA, hp, satisfies, hd, hlt]
  · intro he
    cases hd : a.direction with
    | above => simp [evalAlert, hA, hp, satisfies, hd, he]
    | below => simp [evalAlert, hA, hp, satisfies, hd, he]

/-- C1 witness: the spec scenario.  An ACTIVE alert on BTC with
threshold 60000 and direction ABOVE fires on a snapshot BTC=60001 and
does not fire on BTC=60000. -/
theorem evaluator_fires_iff_strict_witness :
    ((Alert.mk 1 7 "BTC" 60000 .above .active 0).status = .active ∧
      lookupPrice (PriceSnapshot.mk [("BTC", 60001)] 100) "BTC" = some 60001) ∧
    (((evalAlert (PriceSnapshot.mk [("BTC", 60001)] 100)
        (Alert.mk 1 7 "BTC" 60000 .above .active 0)).2.isSome = true ∧
      ((evalAlert (PriceSnapshot.mk [("BTC", 60001)] 100)
        (Alert.mk 1 7 "BTC" 60000 .above .active 0)).1).status = .triggered) ↔
      (((Alert.mk 1 7 "BTC" 60000 .above .active 0).direction = .above ∧
          (Alert.mk 1 7 "BTC" 60000 .above .active 0).threshold < 60001) ∨
        ((Alert.mk 1 7 "BTC" 60000 .above .active 0).direction = .below ∧
          (60001 : ℚ) < (Alert.mk 1 7 "BTC" 60000 .above .active 0).threshold))) := by
  refine ⟨⟨rfl, by decide⟩, ?_⟩
  exact (evaluator_fires_iff_strict (PriceSnapshot.mk [("BTC", 60001)] 100)
    (Alert.mk 1 7 "BTC" 60000 .above .active 0) 60001 rfl (by decide)).1

/-- C2: over any sequence of evaluation cycles, an alert that is already
TRIGGERED is never evaluated again and never dispatches (the run leaves
it untouched and emits nothing), and any alert dispatches at most one
notification over its lifetime. -/
theorem alert_at_most_once (snaps : List PriceSnapshot) (a : Alert) :
    (a.status = .triggered → runAlert snaps a = (a, [])) ∧
    ((runAlert snaps a).2.length ≤ 1) := by
  refine ⟨runAlert_triggered snaps a, ?_⟩
  induction snaps generalizing a with
  | nil => simp [runAlert]
  | cons s rest ih =>
    cases ho : (evalAlert s a).2 with
    | none =>
      have hfst := evalAlert_none_fst s a ho
      simp [runAlert, ho, hfst]
      exact ih a
    | some m =>
      have htr := evalAlert_some_triggered s a m ho
      have := runAlert_triggered rest ((evalAlert s a).1) htr
      simp [runAlert, ho, this]

/-- C2 witness: a TRIGGERED BTC alert run over two snapshots that both
satisfy its predicate is left unchanged, dispatches nothing, and emits
at most one message. -/
theorem alert_at_most_once_witness :
    (runAlert [PriceSnapshot.mk [("BTC", 70000)] 1, PriceSnapshot.mk [("BTC", 70001)] 2]
        (Alert.mk 1 7 "BTC" 60000 .above .triggered 0) =
      (Alert.mk 1 7 "BTC" 60000 .above .triggered 0, [])) ∧
    ((runAlert [PriceSnapshot.mk [("BTC", 70000)] 1, PriceSnapshot.mk [("BTC", 70001)] 2]
        (Alert.mk 1 7 "BTC" 60000 .above .triggered 0)).2.length ≤ 1) := by
  have h := alert_at_most_once
    [PriceSnapshot.mk [("BTC", 70000)] 1, PriceSnapshot.mk [("BTC", 70001)] 2]
    (Alert.mk 1 7 "BTC" 60000 .above .triggered 0)
  exact ⟨h.1 rfl, h.2⟩

/-- C4: an ACTIVE alert whose symbol is absent from the snapshot is left
entirely unchanged by the cycle (same alert, ACTIVE status, no
dispatch), and the next cycle evaluates it exactly as if the skipped
cycle had not happened. -/
theorem missing_symbol_skips_alert (snap snap2 : PriceSnapshot) (a : Alert)
    (hA : a.status = .active) (hmiss : lookupPrice snap a.symbol = none) :
    evalAlert snap a = (a, none) ∧
    ((evalAlert snap a).1).status = .active ∧
    evalAlert snap2 ((evalAlert snap a).1) = evalAlert snap2 a := by
  have h : evalAlert snap a = (a, none) := by
    simp [evalAlert, hA, hmiss]
  refine ⟨h, ?_, ?_⟩
  · rw [h]
    exact hA
  · rw [h]

/-- C4 witness: the spec scenario.  A snapshot that omits BTC leaves an
ACTIVE BTC alert unchanged and not dispatched, and on the next snapshot
with BTC present the alert is evaluated as usual. -/
theorem missing_symbol_skips_alert_witness :
    evalAlert (PriceSnapshot.mk [("ETH", 2000)] 1) (Alert.mk 1 7 "BTC" 60000 .above .active 0) =
      (Alert.mk 1 7 "BTC" 60000 .above .active 0, none) ∧
    ((evalAlert (PriceSnapshot.mk [("ETH", 2000)] 1)
        (Alert.mk 1 7 "BTC" 60000 .above .active 0)).1).status = .active ∧
    evalAlert (PriceSnapshot.mk [("BTC", 60001)] 2)
        ((evalAlert (PriceSnapshot.mk [("ETH", 2000)] 1)
          (Alert.mk 1 7 "BTC" 60000 .above .active 0)).1) =
      evalAlert (PriceSnapshot.mk [("BTC", 60001)] 2)
        (Alert.mk 1 7 "BTC" 60000 .above .active 0) :=
  missing_symbol_skips_alert (PriceSnapshot.mk [("ETH", 2000)] 1)
    (PriceSnapshot.mk [("BTC", 60001)] 2)
    (Alert.mk 1 7 "BTC" 60000 .above .active 0) rfl (by decide)

/-- Modelled from the spec (section 4.3): the outcome the messaging
service reports for one delivery attempt. -/
inductive AttemptResult where
  | delivered
  | transientFailure
  | permanentFailure
deriving DecidableEq, Repr

/-- Modelled from the spec (section 4.3): the overall outcome the
dispatcher reports after its retry loop. -/
inductive DispatchOutcome where
  | success
  | retriesExhausted
  | permanentFailure
deriving DecidableEq, Repr

/-- Modelled from the spec (section 4.3): the dispatcher retry loop.
The oracle result gives the messaging-service outcome of each attempt;
a transient failure is retried while attempt budget remains, a
permanent failure is logged and dropped without retrying, and the
alert record is carried through unmodified - delivery never writes
business state. -/
def deliverLoop (result : Nat → AttemptResult) (a : Alert) (attempt : Nat) :
    Nat → Alert × DispatchOutcome
  | 0 => (a, .retriesExhausted)
  | fuel + 1 =>
    match result attempt with
    | .delivered => (a, .success)
    | .permanentFailure => (a, .permanentFailure)
    | .transientFailure => deliverLoop result a (attempt + 1) fuel

/-- Modelled from the spec (section 4.3): dispatching a triggered alert
runs the delivery loop from attempt 0 with a bounded attempt budget. -/
def dispatchTriggered (result : Nat → AttemptResult) (maxAttempts : Nat) (a : Alert) :
    Alert × DispatchOutcome :=
  deliverLoop result a 0 maxAttempts

theorem deliverLoop_fst (result : Nat → AttemptResult) (a : Alert) :
    ∀ fuel attempt, (deliverLoop result a attempt fuel).1 = a := by
  intro fuel
  induction fuel with
  | zero => intro attempt; rfl
  | succ n ih =>
    intro attempt
    unfold deliverLoop
    cases result attempt with
    | delivered => rfl
    | permanentFailure => rfl
    | transientFailure => exact ih (attempt + 1)

/-- C3: whatever the delivery outcome of the retry loop (success,
transient failures up to the bounded attempt budget, or a permanent
failure), the dispatcher returns the alert record unchanged; in
particular a TRIGGERED alert stays TRIGGERED, and the evaluator
transition is never re-run or reversed. -/
theorem dispatcher_preserves_status (result : Nat → AttemptResult)
    (maxAttempts : Nat) (a : Alert) :
    (dispatchTriggered result maxAttempts a).1 = a ∧
    (a.status = .triggered →
      ((dispatchTriggered result maxAttempts a).1).status = .triggered) := by
  have h := deliverLoop_fst result a maxAttempts 0
  refine ⟨h, ?_⟩
  intro htr
  rw [dispatchTriggered, h]
  exact htr

/-- C3 witness: a triggered BTC alert dispatched against a service that
always reports a transient failure, with an attempt budget of 3, comes
back unchanged and still TRIGGERED. -/
theorem dispatcher_preserves_status_witness :
    (dispatchTriggered (fun _ => .transientFailure) 3
        (Alert.mk 1 7 "BTC" 60000 .above .triggered 0)).1 =
      Alert.mk 1 7 "BTC" 60000 .above .triggered 0 ∧
    ((dispatchTriggered (fun _ => .transientFailure) 3
        (Alert.mk 1 7 "BTC" 60000 .above .triggered 0)).1).status = .triggered := by
  have h := dispatcher_preserves_status (fun _ => .transientFailure) 3
    (Alert.mk 1 7 "BTC" 60000 .above .triggered 0)
  exact ⟨h.1, h.2 rfl⟩

/-- Substring containment by explicit decomposition: m holds x when m
splits as l ++ x ++ r. -/
def ContainsStr (m x : String) : Prop :=
  ∃ l r, m = l ++ (x ++ r)

theorem formatMessage_fields (a : Alert) (p : ℚ) (ts : Nat) :
    ContainsStr (formatMessage a p ts) a.symbol ∧
    ContainsStr (formatMessage a p ts) (toString p) ∧
    ContainsStr (formatMessage a p ts) (dirWord a.direction) ∧
    ContainsStr (formatMessage a p ts) (toString a.threshold) ∧
    ContainsStr (formatMessage a p ts) (toString ts) := by
  refine ⟨⟨"CRYPTO ALERT: ",
      " is now $" ++ (toString p ++ (" - this is " ++ (dirWord a.direction ++
        (" your threshold of $" ++ (toString a.threshold ++
          (" - alert triggered at " ++ (toString ts ++ " UTC"))))))), ?_⟩,
    ⟨"CRYPTO ALERT: " ++ (a.symbol ++ " is now $"),
      " - this is " ++ (dirWord a.direction ++ (" your threshold of $" ++
        (toString a.threshold ++ (" - alert triggered at " ++
          (toString ts ++ " UTC"))))), ?_⟩,
    ⟨"CRYPTO ALERT: " ++ (a.symbol ++ (" is now $" ++ (toString p ++ " - this is "))),
      " your threshold of $" ++ (toString a.threshold ++
        (" - alert triggered at " ++ (toString ts ++ " UTC"))), ?_⟩,
    ⟨"CRYPTO ALERT: " ++ (a.symbol ++ (" is now $" ++ (toString p ++
        (" - this is " ++ (dirWord a.direction ++ " your threshold of $"))))),
      " - alert triggered at " ++ (toString ts ++ " UTC"), ?_⟩,
    ⟨"CRYPTO ALERT: " ++ (a.symbol ++ (" is now $" ++ (toString p ++
        (" - this is " ++ (dirWord a.direction ++ (" your threshold of $" ++
          (toString a.threshold ++ " - alert triggered at "))))))),
      " UTC", ?_⟩⟩ <;>
  simp only [formatMessage, String.append_assoc]

/-- C7: every message the evaluator hands to the dispatcher for a
triggered alert is the deterministic function formatMessage of the
alert, the observed price and the snapshot timestamp, and its text
contains the symbol, the observed price, the direction and threshold
relation, and the timestamp. -/
theorem dispatched_message_fields (snap : PriceSnapshot) (a b : Alert) (m : String)
    (h : evalAlert snap a = (b, some m)) :
    ∃ p, lookupPrice snap a.symbol = some p ∧
      m = formatMessage a p snap.ts ∧
      ContainsStr m a.symbol ∧
      ContainsStr m (toString p) ∧
      ContainsStr m (dirWord a.direction) ∧
      ContainsStr m (toString a.threshold) ∧
      ContainsStr m (toString snap.ts) := by
  have hm : (evalAlert snap a).2 = some m := by rw [h]
  unfold evalAlert at hm
  cases hst : a.status with
  | triggered => simp [hst] at hm
  | active =>
    simp only [hst] at hm
    cases hp : lookupPrice snap a.symbol with
    | none => simp [hp] at hm
    | some p =>
      simp only [hp] at hm
      by_cases hs : satisfies a.direction a.threshold p = true
      · simp only [hs, if_pos] at hm
        have hmeq : m = formatMessage a p snap.ts := by
          simpa using hm.symm
        subst hmeq
        exact ⟨p, rfl, rfl, formatMessage_fields a p snap.ts⟩
      · simp [hs] at hm

/-- C7 witness: the spec scenario.  The alert BTC threshold 60000 ABOVE
on snapshot BTC=60001 dispatches one message that carries BTC, 60001,
the word above together with 60000, and the snapshot timestamp. -/
theorem dispatched_message_fields_witness :
    ∃ p, lookupPrice (PriceSnapshot.mk [("BTC", 60001)] 100) "BTC" = some p ∧
      (formatMessage (Alert.mk 1 7 "BTC" 60000 .above .active 0) 60001 100 =
        formatMessage (Alert.mk 1 7 "BTC" 60000 .above .active 0) p 100) ∧
      ContainsStr (formatMessage (Alert.mk 1 7 "BTC" 60000 .above .active 0) 60001 100) "BTC" ∧
      ContainsStr (formatMessage (Alert.mk 1 7 "BTC" 60000 .above .active 0) 60001 100)
        (toString p) ∧
      ContainsStr (formatMessage (Alert.mk 1 7 "BTC" 60000 .above .active 0) 60001 100)
        (dirWord .above) ∧
      ContainsStr (formatMessage (Alert.mk 1 7 "BTC" 60000 .above .active 0) 60001 100)
        (toString (60000 : ℚ)) ∧
      ContainsStr (formatMessage (Alert.mk 1 7 "BTC" 60000 .above .active 0) 60001 100)
        (toString (100 : Nat)) := by
  obtain ⟨p, hp, hmeq, h1, h2, h3, h4, h5⟩ :=
    dispatched_message_fields (PriceSnapshot.mk [("BTC", 60001)] 100)
      (Alert.mk 1 7 "BTC" 60000 .above .active 0)
      ((evalAlert (PriceSnapshot.mk [("BTC", 60001)] 100)
        (Alert.mk 1 7 "BTC" 60000 .above .active 0)).1)
      (formatMessage (Alert.mk 1 7 "BTC" 60000 .above .active 0) 60001 100)
      (by decide)
  have hpe : p = 60001 := by
    have : some p = some (60001 : ℚ) := by rw [← hp]; decide
    simpa using this
  subst hpe
  exact ⟨60001, hp, rfl, h1, h2, h3, h4, h5⟩

/-- Embedded from src/src/App.js (addNotification, both the App and the
AppContent variants are identical): one entry of the frontend
notification list.  In the source, id is Date.now() and timestamp is
new Date(); both are modelled by the injected clock value now.  The
field named type in the source is rendered ntype here because type is a
reserved word. -/
structure NotificationItem where
  id : Nat
  message : String
  ntype : String
  timestamp : Nat
deriving DecidableEq, Repr

/-- Embedded from src/src/App.js lines 31-44 and 189-202
(addNotification): error-typed notifications are dropped before
insertion; every other type is prepended in front of the first four
existing entries (prev.slice(0, 4)), keeping at most five. -/
def addNotification (now : Nat) (message ntype : String)
    (prev : List NotificationItem) : List NotificationItem :=
  if ntype == "error" then
    prev
  else
    { id := now, message := message, ntype := ntype, timestamp := now } :: prev.take 4

/-- Embedded from src/src/App.js lines 46-48 and 204-206
(removeNotification): drop the entry with the given id. -/
def removeNotification (nid : Nat) (l : List NotificationItem) : List NotificationItem :=
  l.filter (fun n => n.id != nid)

/-- C8: a call to addNotification with type error leaves the
notification list unchanged (the UI-level suppression filter drops it),
while a call with any other type prepends the new notification. -/
theorem error_notifications_dropped (now : Nat) (message : String)
    (prev : List NotificationItem) :
    addNotification now message "error" prev = prev ∧
    (∀ ntype, ntype ≠ "error" →
      addNotification now message ntype prev =
        { id := now, message := message, ntype := ntype, timestamp := now } :: prev.take 4) := by
  constructor
  · simp [addNotification]
  · intro ntype hne
    simp [addNotification, hne]

/-- C8 witness: on the empty list, an error notification is dropped and
a success notification is prepended. -/
theorem error_notifications_dropped_witness :
    addNotification 5 "boom" "error" [] = [] ∧
    addNotification 5 "saved" "success" [] =
      [{ id := 5, message := "saved", ntype := "success", timestamp := 5 }] := by
  have h := error_notifications_dropped 5 "boom" []
  have h2 := error_notifications_dropped 5 "saved" []
  exact ⟨h.1, h2.2 "success" (by decide)⟩

/-- C10: the notification list never exceeds five entries and stays
newest-first.  An inserting addNotification puts the new entry first and
keeps at most the four most recent previous entries, so its result has
length min 5 (previous length + 1); a suppressed addNotification and
removeNotification never grow the list, and removeNotification only
removes existing entries; hence the five-entry bound is preserved by
every operation. -/
theorem notification_list_bounded (now : Nat) (message ntype : String)
    (prev : List NotificationItem) (nid : Nat) :
    (prev.length ≤ 5 → (addNotification now message ntype prev).length ≤ 5) ∧
    (ntype ≠ "error" →
      (addNotification now message ntype prev).head? =
        some { id := now, message := message, ntype := ntype, timestamp := now } ∧
      (addNotification now message ntype prev).length = min 5 (prev.length + 1)) ∧
    (removeNotification nid prev).length ≤ prev.length ∧
    (∀ x ∈ removeNotification nid prev, x ∈ prev) := by
  refine ⟨?_, ?_, ?_, ?_⟩
  · intro hle
    by_cases he : ntype = "error"
    · simpa [addNotification, he] using hle
    · simp only [addNotification, beq_iff_eq, he, if_false, List.length_cons, List.length_take]
      omega
  · intro hne
    constructor
    · simp [addNotification, hne]
    · simp only [addNotification, beq_iff_eq, hne, if_false, List.length_cons, List.length_take]
      omega
  · exact List.length_filter_le _ prev
  · intro x hx
    exact List.mem_of_mem_filter hx

/-- C10 witness: inserting into a full list of five keeps five entries
with the new one first, and removing from it does not grow it. -/
theorem notification_list_bounded_witness :
    ((List.replicate 5 (NotificationItem.mk 0 "old" "info" 0)).length ≤ 5 →
      (addNotification 9 "new" "info"
        (List.replicate 5 (NotificationItem.mk 0 "old" "info" 0))).length ≤ 5) ∧
    (addNotification 9 "new" "info"
        (List.replicate 5 (NotificationItem.mk 0 "old" "info" 0))).head? =
      some (NotificationItem.mk 9 "new" "info" 9) ∧
    (removeNotification 0
        (List.replicate 5 (NotificationItem.mk 0 "old" "info" 0))).length ≤
      (List.replicate 5 (NotificationItem.mk 0 "old" "info" 0)).length := by
  have h := notification_list_bounded 9 "new" "info"
    (List.replicate 5 (NotificationItem.mk 0 "old" "info" 0)) 0
  exact ⟨h.1, (h.2.1 (by decide)).1, h.2.2.1⟩

/-- Embedded from src/src/App.js line 743 (Dashboard useEffect):
setInterval(fetchPrices, 30000), the client-side refresh period in
milliseconds. -/
def dashboardRefreshIntervalMs : Nat := 30000

/-- Modelled from the spec: the server-side polling cadence.  The
backend scheduler (app.py) is absent from src/; the README
(src/unnamed/part_002) documents real-time price checks every 10
seconds. -/
def serverPollIntervalMs : Nat := 10000

/-- Embedded from src/src/App.js lines 738-745 (Dashboard useEffect):
the times at which a price fetch runs while the component is mounted.
fetchPrices is called once immediately on mount and then on every
interval tick of 30000 ms until the cleanup at unmount clears the
interval. -/
def dashboardFetchSchedule (mount unmount : Nat) : List Nat :=
  (List.range ((unmount - mount) / dashboardRefreshIntervalMs + 1)).map
    (fun k => mount + k * dashboardRefreshIntervalMs)

/-- C9: the dashboard refreshes prices on a fixed 30-second period:
a fetch runs at mount and a fetch is scheduled exactly at every 30000 ms
multiple after mount that falls before unmount, a cadence independent of
the 10-second server-side polling interval. -/
theorem dashboard_refresh_thirty_seconds (mount unmount t : Nat) :
    (t ∈ dashboardFetchSchedule mount unmount ↔
      ∃ k, k * dashboardRefreshIntervalMs ≤ unmount - mount ∧
        t = mount + k * dashboardRefreshIntervalMs) ∧
    mount ∈ dashboardFetchSchedule mount unmount ∧
    dashboardRefreshIntervalMs = 30000 ∧
    serverPollIntervalMs = 10000 ∧
    dashboardRefreshIntervalMs ≠ serverPollIntervalMs := by
  have hpos : 0 < dashboardRefreshIntervalMs := by decide
  have hmem : ∀ s, s ∈ dashboardFetchSchedule mount unmount ↔
      ∃ k, k * dashboardRefreshIntervalMs ≤ unmount - mount ∧
        s = mount + k * dashboardRefreshIntervalMs := by
    intro s
    simp only [dashboardFetchSchedule, List.mem_map, List.mem_range, Nat.lt_succ_iff]
    constructor
    · rintro ⟨k, hk, rfl⟩
      exact ⟨k, (Nat.le_div_iff_mul_le hpos).1 hk, rfl⟩
    · rintro ⟨k, hk, rfl⟩
      exact ⟨k, (Nat.le_div_iff_mul_le hpos).2 hk, rfl⟩
  refine ⟨hmem t, ?_, rfl, rfl, by decide⟩
  exact (hmem mount).2 ⟨0, by simp, by simp⟩

/-- C9 witness: with mount at time 0 and unmount at 65000 ms, a fetch
runs at mount, the schedule is exactly the 30000 ms multiples 0, 30000,
60000, and the next multiple 90000 is past unmount and not scheduled. -/
theorem dashboard_refresh_thirty_seconds_witness :
    (90000 ∈ dashboardFetchSchedule 0 65000 ↔
      ∃ k, k * dashboardRefreshIntervalMs ≤ 65000 - 0 ∧
        90000 = 0 + k * dashboardRefreshIntervalMs) ∧
    0 ∈ dashboardFetchSchedule 0 65000 ∧
    dashboardRefreshIntervalMs = 30000 := by
  have h := dashboard_refresh_thirty_seconds 0 65000 90000
  exact ⟨h.1, h.2.1, h.2.2.1⟩

/-- Per-attempt outcome of a frontend fetch loop: either the request
resolved and the state was updated, or the loop gave up and surfaced a
notification with the given message and notification type. -/
inductive FetchResult where
  | updated
  | warned (message ntype : String)
deriving DecidableEq, Repr

/-- Embedded from src/src/App.js lines 696-723 (fetchPrices) and
src/src/components/PriceChart.js lines 103-143 (fetchChartData), which
share this loop structure verbatim: try the request for the given
attempt; on success stop, on failure retry after a fixed delay of
retryDelayMs while retryCount < maxRetries, and after exhausting the
retries surface onNotification(warnMessage, "warning") instead of
raising an error.  The oracle succeeds says whether attempt k resolves;
the second component records the delay scheduled before each retry. -/
def retryLoop (succeeds : Nat → Bool) (maxRetries retryDelayMs : Nat)
    (warnMessage : String) (retryCount : Nat) : FetchResult × List Nat :=
  if succeeds retryCount then
    (.updated, [])
  else if h : retryCount < maxRetries then
    let next := retryLoop succeeds maxRetries retryDelayMs warnMessage (retryCount + 1)
    (next.1, retryDelayMs :: next.2)
  else
    (.warned warnMessage "warning", [])
termination_by maxRetries - retryCount

/-- Embedded from src/src/App.js lines 696-723: fetchPrices with
maxRetries = 5 and retryDelay = 2000 ms, starting at retryCount 0. -/
def fetchPrices (succeeds : Nat → Bool) : FetchResult × List Nat :=
  retryLoop succeeds 5 2000 "Network unstable - Unable to fetch cryptocurrency prices" 0

/-- Embedded from src/src/components/PriceChart.js lines 103-143:
fetchChartData with maxRetries = 5 and retryDelay = 3000 ms, starting at
retryCount 0. -/
def fetchChartData (succeeds : Nat → Bool) (selectedCrypto : String) :
    FetchResult × List Nat :=
  retryLoop succeeds 5 3000
    ("Network unstable - Unable to fetch chart data for " ++ selectedCrypto) 0

theorem retryLoop_delays (succeeds : Nat → Bool) (maxRetries retryDelayMs : Nat)
    (warnMessage : String) :
    ∀ fuel retryCount, maxRetries - retryCount ≤ fuel →
      (retryLoop succeeds maxRetries retryDelayMs warnMessage retryCount).2.length ≤
          maxRetries - retryCount ∧
        ∀ d ∈ (retryLoop succeeds maxRetries retryDelayMs warnMessage retryCount).2,
          d = retryDelayMs := by
  intro fuel
  induction fuel with
  | zero =>
    intro retryCount hf
    rw [retryLoop]
    have hnlt : ¬ retryCount < maxRetries := by omega
    by_cases hs : succeeds retryCount = true
    · simp [hs]
    · simp [hs, hnlt]
  | succ n ih =>
    intro retryCount hf
    rw [retryLoop]
    by_cases hs : succeeds retryCount = true
    · simp [hs]
    · by_cases hlt : retryCount < maxRetries
      · have hrec := ih (retryCount + 1) (by omega)
        simp only [hs, Bool.false_eq_true, if_false, hlt, dif_pos, List.length_cons,
          List.mem_cons]
        constructor
        · omega
        · rintro d (rfl | hd)
          · rfl
          · exact hrec.2 d hd
      · simp [hs, hlt]

theorem retryLoop_exhausted (succeeds : Nat → Bool) (maxRetries retryDelayMs : Nat)
    (warnMessage : String) (hall : ∀ k, succeeds k = false) :
    ∀ fuel retryCount, maxRetries - retryCount ≤ fuel →
      retryLoop succeeds maxRetries retryDelayMs warnMessage retryCount =
        (.warned warnMessage "warning", List.replicate (maxRetries - retryCount) retryDelayMs) := by
  intro fuel
  induction fuel with
  | zero =>
    intro retryCount hf
    rw [retryLoop]
    have hnlt : ¬ retryCount < maxRetries := by omega
    have hz : maxRetries - retryCount = 0 := by omega
    simp [hall retryCount, hnlt, hz]
  | succ n ih =>
    intro retryCount hf
    rw [retryLoop]
    by_cases hlt : retryCount < maxRetries
    · have hrec := ih (retryCount + 1) (by omega)
      have hsub : maxRetries - retryCount = (maxRetries - (retryCount + 1)) + 1 := by omega
      simp [hall retryCount, hlt, hrec, hsub, List.replicate_succ]
    · have hz : maxRetries - retryCount = 0 := by omega
      simp [hall retryCount, hlt, hz]

/-- C5: both frontend fetch loops retry at most five times, every retry
is scheduled after the fixed per-loop delay (2000 ms for the dashboard
price fetch, 3000 ms for the chart fetch, both within 2 to 3 seconds),
and when every attempt fails the loop stops after its five retries and
surfaces a warning-typed data-unavailable notification, not an error:
the warning passes the addNotification suppression filter while an
error-typed one would be dropped.  Each scheduled tick restarts
fetchPrices from retryCount 0, so polling resumes on the next tick. -/
theorem fetch_retry_bounded_warning (succeeds : Nat → Bool) (selectedCrypto : String) :
    ((fetchPrices succeeds).2.length ≤ 5 ∧
      ∀ d ∈ (fetchPrices succeeds).2, d = 2000) ∧
    ((fetchChartData succeeds selectedCrypto).2.length ≤ 5 ∧
      ∀ d ∈ (fetchChartData succeeds selectedCrypto).2, d = 3000) ∧
    ((∀ k, succeeds k = false) →
      fetchPrices succeeds =
        (.warned "Network unstable - Unable to fetch cryptocurrency prices" "warning",
          List.replicate 5 2000) ∧
      fetchChartData succeeds selectedCrypto =
        (.warned ("Network unstable - Unable to fetch chart data for " ++ selectedCrypto)
          "warning", List.replicate 5 3000) ∧
      ∀ now prev,
        (addNotification now "Network unstable - Unable to fetch cryptocurrency prices"
            "warning" prev).head? =
          some { id := now,
                 message := "Network unstable - Unable to fetch cryptocurrency prices",
                 ntype := "warning", timestamp := now }) := by
  refine ⟨?_, ?_, ?_⟩
  · exact retryLoop_delays succeeds 5 2000
      "Network unstable - Unable to fetch cryptocurrency prices" 5 0 (by omega)
  · exact retryLoop_delays succeeds 5 3000
      ("Network unstable - Unable to fetch chart data for " ++ selectedCrypto) 5 0 (by omega)
  · intro hall
    refine ⟨?_, ?_, fun now prev => by simp [addNotification]⟩
    · exact retryLoop_exhausted succeeds 5 2000
        "Network unstable - Unable to fetch cryptocurrency prices" hall 5 0 (by omega)
    · exact retryLoop_exhausted succeeds 5 3000
        ("Network unstable - Unable to fetch chart data for " ++ selectedCrypto) hall 5 0
        (by omega)

/-- C5 witness: when the service is down for good, the dashboard fetch
performs exactly five retries at 2000 ms and ends in the warning-typed
notification, and the chart fetch five retries at 3000 ms. -/
theorem fetch_retry_bounded_warning_witness :
    ((fetchPrices (fun _ => false)).2.length ≤ 5 ∧
      ∀ d ∈ (fetchPrices (fun _ => false)).2, d = 2000) ∧
    fetchPrices (fun _ => false) =
      (.warned "Network unstable - Unable to fetch cryptocurrency prices" "warning",
        List.replicate 5 2000) ∧
    fetchChartData (fun _ => false) "BTC" =
      (.warned "Network unstable - Unable to fetch chart data for BTC" "warning",
        List.replicate 5 3000) := by
  have h := fetch_retry_bounded_warning (fun _ => false) "BTC"
  have hfail := h.2.2 (fun _ => rfl)
  exact ⟨h.1, hfail.1, hfail.2.1⟩

theorem uint32_le_iff (a b : UInt32) : (a ≤ b) ↔ a.toNat ≤ b.toNat := by
  simp [UInt32.le_def, BitVec.le_def]
  rfl

theorem charOfNat_toNat_of_valid {m : Nat} (hv : m.isValidChar) :
    (Char.ofNat m).toNat = m := by
  have hsize : UInt32.size = 4294967296 := rfl
  have hlt : m < UInt32.size := by
    rcases hv with h | h
    · omega
    · omega
  simp [Char.ofNat, hv, Char.ofNatAux, Char.toNat, UInt32.toNat, BitVec.toNat_ofNatLt]

theorem char_isAlpha_iff (d : Char) :
    d.isAlpha = decide ((65 ≤ d.toNat ∧ d.toNat ≤ 90) ∨ (97 ≤ d.toNat ∧ d.toNat ≤ 122)) := by
  have h1 : ∀ a b : UInt32, decide (a ≤ b) = decide (a.toNat ≤ b.toNat) := by
    intro a b
    rw [decide_eq_decide]
    exact uint32_le_iff a b
  simp only [Char.isAlpha, Char.isUpper, Char.isLower, GE.ge, Char.toNat, h1]
  have h65 : ((65 : UInt32)).toNat = 65 := rfl
  have h90 : ((90 : UInt32)).toNat = 90 := rfl
  have h97 : ((97 : UInt32)).toNat = 97 := rfl
  have h122 : ((122 : UInt32)).toNat = 122 := rfl
  rw [h65, h90, h97, h122, ← Bool.decide_and, ← Bool.decide_and, ← Bool.decide_or,
    decide_eq_decide]

theorem toUpper_isAlpha (c : Char) : (Char.toUpper c).isAlpha = c.isAlpha := by
  unfold Char.toUpper
  simp only []
  by_cases h : c.toNat ≥ 97 ∧ c.toNat ≤ 122
  · rw [if_pos h]
    have hv : (c.toNat - 32).isValidChar := by
      left
      omega
    rw [char_isAlpha_iff, char_isAlpha_iff c, charOfNat_toNat_of_valid hv]
    rw [decide_eq_decide]
    omega
  · rw [if_neg h]

/-- Python str.isalpha over a character list: true when the list is
non-empty and every character is alphabetic.  The basic-latin range is
used, matching the symbols this application handles. -/
def pyStrIsAlpha (cs : List Char) : Bool :=
  !cs.isEmpty && cs.all Char.isAlpha

/-- Embedded from src/unnamed/part_001 lines 57-60 (the backend code
reproduced in the security document): validate_crypto_symbol returns
False for a missing or empty value and otherwise requires
symbol.upper().isalpha() and len(symbol) <= 10.  The upper() call is
modelled with Char.toUpper over the character data. -/
def validate_crypto_symbol (symbol : String) : Bool :=
  if symbol.isEmpty then
    false
  else
    pyStrIsAlpha (symbol.data.map Char.toUpper) && decide (symbol.length ≤ 10)

/-- The acceptance predicate in the words of the spec (section 3 and
claim C6): non-empty, only alphanumeric characters, length at most
ten. -/
def symbolAcceptedSpec (symbol : String) : Bool :=
  !symbol.isEmpty && symbol.data.all Char.isAlphanum && decide (symbol.length ≤ 10)

/-- C6 counterexample: BTC2 is a non-empty alphanumeric string of
length at most ten, so the claim says it is accepted, but
validate_crypto_symbol rejects it because the Python code tests
isalpha(), which a digit fails. -/
theorem symbol_validation_claim_counterexample :
    symbolAcceptedSpec "BTC2" = true ∧ validate_crypto_symbol "BTC2" = false := by
  decide

/-- C6 amended: a submitted symbol is accepted by
validate_crypto_symbol iff it is a non-empty string of only alphabetic
characters (letters, not digits) with length at most ten. -/
theorem symbol_validation_alpha_iff (s : String) :
    validate_crypto_symbol s = true ↔
      (s.data ≠ [] ∧ s.data.all Char.isAlpha = true ∧ s.length ≤ 10) := by
  have hmap : ∀ l : List Char, (l.map Char.toUpper).all Char.isAlpha = l.all Char.isAlpha := by
    intro l
    induction l with
    | nil => rfl
    | cons c cs ih => simp [toUpper_isAlpha, ih]
  by_cases he : s.isEmpty = true
  · have hd : s.data = [] := by
      rw [String.isEmpty_iff] at he
      rw [he]
    simp [validate_crypto_symbol, he, hd]
  · have hd : s.data ≠ [] := by
      intro hnil
      apply he
      rw [String.isEmpty_iff]
      cases s with
      | mk l =>
        simp only at hnil
        rw [hnil]
    have hne : (s.data.map Char.toUpper).isEmpty = false := by
      cases hcd : s.data with
      | nil => exact absurd hcd hd
      | cons c cs => rfl
    simp only [validate_crypto_symbol, he, Bool.false_eq_true, if_false, pyStrIsAlpha, hmap,
      hne, Bool.not_false, Bool.true_and, Bool.and_eq_true, decide_eq_true_eq]
    constructor
    · intro h
      exact ⟨hd, h.1, h.2⟩
    · intro h
      exact ⟨h.2.1, h.2.2⟩

/-- C6 amended witness: the amended criterion evaluated at BTC, which
validate_crypto_symbol accepts as a non-empty all-letter string of
length three. -/
theorem symbol_validation_alpha_iff_witness :
    validate_crypto_symbol "BTC" = true ↔
      ("BTC".data ≠ [] ∧ "BTC".data.all Char.isAlpha = true ∧ "BTC".length ≤ 10) :=
  symbol_validation_alpha_iff "BTC"
